import Mathlib

/-!
Verification development for the `PlaywrightController` thread-affinity bridge
(`playwright_controller.py`): a shallow embedding of the controller's session
state, its dispatch gate (task queue / result queue / owner thread loop), and
its lifecycle operations, together with theorems settling the specification's
claims about them.

Conventions of the embedding:
* Python strings are Lean `String`s; Python `in` (substring) is `containsSub`.
* Machine-level details (OS pids, sockets) are abstracted to the information
  the code branches on: a spawned process is a record with its liveness
  (`poll()`-observable) status; `os.getpgid` on an exited-and-reaped process
  raises `ProcessLookupError`, modelled as an error outcome.
* Live Playwright objects are modelled by the data the controller reads from
  them: the driver handle records the thread id that created it, the browser
  handle records its `is_connected()` status, the page handle its presence.
* Outcomes of calls into the external world (closing the browser, stopping
  the driver, connecting to the remote endpoint) are inputs to the model, a
  `World` record per operation, so each theorem quantifies over them.
* A Python function that may raise returns `Except PyErr`.
-/

namespace PW

/-- Python-style exceptions that the modelled code can raise or store. -/
inductive PyErr where
  | runtimeError (msg : String)
  | processLookupError
  | nameError (nm : String)
deriving DecidableEq

/-- `listStarts n h` : the list `h` starts with the list `n`. -/
def listStarts : List Char → List Char → Bool
  | [], _ => true
  | _ :: _, [] => false
  | a :: as, b :: bs => a == b && listStarts as bs

/-- `listHasSub n h` : the list `n` occurs as a contiguous sublist of `h`
(Python's `n in h` on strings). -/
def listHasSub : List Char → List Char → Bool
  | n, [] => n.isEmpty
  | n, c :: t => listStarts n (c :: t) || listHasSub n t

/-- `containsSub needle hay` : Python's `needle in hay` substring test. -/
def containsSub (needle hay : String) : Bool :=
  listHasSub needle.data hay.data

/-- `startsWithStr s p` : Python's `s.startswith(p)`. -/
def startsWithStr (s p : String) : Bool :=
  listStarts p.data s.data

/-- `endsWithStr s p` : Python's `s.endswith(p)`. -/
def endsWithStr (s p : String) : Bool :=
  listStarts p.data.reverse s.data.reverse

/-!
The dispatch gate (`_ensure_worker` / `_call_on_worker` and the worker `_loop`
of `playwright_controller.py`, lines 123-156).

An enqueued item `(func, args, kwargs)` is modelled by the outcome its call
`func(*args, **kwargs)` produces — the loop treats the callable opaquely, so
only its outcome (`Except String Nat`: an exception message, or a value)
reaches the channels.  The loop wraps the outcome as the pair the code puts on
`_result_queue`: `(True, result)` on success, `(False, e)` on exception
(source lines 137-141), and the caller side of `_call_on_worker` unwraps it:
`return value` when the flag is true, `raise value` otherwise (lines 153-156).
-/

/-- Decidable equality of Python-style outcomes, for concrete evaluation. -/
instance instDecEqExcept {ε α : Type} [DecidableEq ε] [DecidableEq α] :
    DecidableEq (Except ε α)
  | Except.ok a, Except.ok b =>
      if h : a = b then Decidable.isTrue (by rw [h])
      else Decidable.isFalse (by intro hc; cases hc; exact h rfl)
  | Except.ok _, Except.error _ => Decidable.isFalse (by intro hc; cases hc)
  | Except.error _, Except.ok _ => Decidable.isFalse (by intro hc; cases hc)
  | Except.error a, Except.error b =>
      if h : a = b then Decidable.isTrue (by rw [h])
      else Decidable.isFalse (by intro hc; cases hc; exact h rfl)

/-- The pair the worker loop puts on `_result_queue`:
`(True, result)` or `(False, e)` (source lines 139 and 141). -/
inductive WireRes (ε α : Type) where
  | success (v : α)
  | failure (e : ε)
deriving DecidableEq

/-- The worker loop boundary (lines 137-141): run the task, catch any
exception, and wrap the outcome as the wire pair. -/
def encodeResult : Except ε α → WireRes ε α
  | Except.ok v => WireRes.success v
  | Except.error e => WireRes.failure e

/-- The caller side of `_call_on_worker` (lines 153-156): `ok, value = get()`;
return the value when ok, re-raise it otherwise. -/
def deliver : WireRes ε α → Except ε α
  | WireRes.success v => Except.ok v
  | WireRes.failure e => Except.error e

/-- The state of one cross-thread caller of `_call_on_worker`. -/
inductive CallerSt where
  | idle
  | waiting (task : Except String Nat)
  | done (task : Except String Nat) (got : WireRes String Nat)
deriving DecidableEq

/-- A configuration of the dispatch gate: the task queue (`_task_queue`), the
shared result queue (`_result_queue`), two cross-thread callers, whether the
worker loop has exited, and ghost histories (`submitted`, `executed`,
`delivered`) recording the order of events. -/
structure GateCfg where
  pending : List (Except String Nat)
  results : List (WireRes String Nat)
  c1 : CallerSt
  c2 : CallerSt
  workerStopped : Bool
  submitted : List (Except String Nat)
  executed : List (Except String Nat)
  delivered : List (WireRes String Nat)
deriving DecidableEq

/-- The empty gate configuration: fresh queues, idle callers, running loop. -/
def initGate : GateCfg :=
  { pending := [], results := [], c1 := CallerSt.idle, c2 := CallerSt.idle,
    workerStopped := false, submitted := [], executed := [], delivered := [] }

/-- Caller 1 enqueues a task (`self._task_queue.put(...)`, line 152) and
begins its blocking wait. -/
def submit1F (c : GateCfg) (t : Except String Nat) : GateCfg :=
  { c with pending := c.pending ++ [t], submitted := c.submitted ++ [t],
           c1 := CallerSt.waiting t }

/-- Caller 2 enqueues a task and begins its blocking wait. -/
def submit2F (c : GateCfg) (t : Except String Nat) : GateCfg :=
  { c with pending := c.pending ++ [t], submitted := c.submitted ++ [t],
           c2 := CallerSt.waiting t }

/-- The worker loop pops the oldest task, executes it, catches any exception
at the loop boundary, and puts the wrapped outcome on the shared result queue
(lines 131-141); the loop then continues. -/
def workF (c : GateCfg) : GateCfg :=
  match c.pending with
  | [] => c
  | t :: rest =>
      { c with pending := rest, results := c.results ++ [encodeResult t],
               executed := c.executed ++ [t] }

/-- Caller 1's blocking `self._result_queue.get()` (line 153) returns: it
removes the oldest pair on the shared result queue, whichever operation
produced it. -/
def recv1F (c : GateCfg) : GateCfg :=
  match c.c1, c.results with
  | CallerSt.waiting t, r :: rest =>
      { c with results := rest, delivered := c.delivered ++ [r],
               c1 := CallerSt.done t r }
  | _, _ => c

/-- Caller 2's blocking `self._result_queue.get()` returns. -/
def recv2F (c : GateCfg) : GateCfg :=
  match c.c2, c.results with
  | CallerSt.waiting t, r :: rest =>
      { c with results := rest, delivered := c.delivered ++ [r],
               c2 := CallerSt.done t r }
  | _, _ => c

/-- One interleaving step of the gate: a caller submits, the worker processes
the head task, or a waiting caller's `get()` returns.  The guards are exactly
the enabling conditions of the corresponding code (a caller only submits when
it has no call in flight; the loop only pops while it has not been stopped;
a `get()` only returns when the result queue is non-empty). -/
inductive GateStep : GateCfg → GateCfg → Prop where
  | submit1 (c : GateCfg) (t : Except String Nat) (h : c.c1 = CallerSt.idle) :
      GateStep c (submit1F c t)
  | submit2 (c : GateCfg) (t : Except String Nat) (h : c.c2 = CallerSt.idle) :
      GateStep c (submit2F c t)
  | work (c : GateCfg) (h1 : c.workerStopped = false) (h2 : c.pending ≠ []) :
      GateStep c (workF c)
  | recv1 (c : GateCfg) (t : Except String Nat) (h1 : c.c1 = CallerSt.waiting t)
      (h2 : c.results ≠ []) : GateStep c (recv1F c)
  | recv2 (c : GateCfg) (t : Except String Nat) (h1 : c.c2 = CallerSt.waiting t)
      (h2 : c.results ≠ []) : GateStep c (recv2F c)

/-- Gate configurations reachable from the fresh gate by interleaved steps. -/
inductive GateReach : GateCfg → Prop where
  | init : GateReach initGate
  | step {c c' : GateCfg} : GateReach c → GateStep c c' → GateReach c'

/-!
The controller's session state and lifecycle operations
(`playwright_controller.py`).
-/

/-- A spawned server process handle (`subprocess.Popen`): `alive` is what
`poll() is None` observes.  Once the process has exited and been reaped by a
`poll()`/`wait()`, `os.getpgid(pid)` on it raises `ProcessLookupError`. -/
structure Proc where
  alive : Bool
deriving DecidableEq

/-- A browser handle; `connected` is what `is_connected()` reports. -/
structure BrowserH where
  connected : Bool
deriving DecidableEq

/-- The fields of `PlaywrightController` (source lines 11-22).  The driver
handle `playwright` records the id of the thread that created it (the live
object is bound to that thread); `page` records presence of the page handle;
`worker_alive` is what `self._worker_thread and self._worker_thread.is_alive()`
observes. -/
structure ControllerState where
  mcp_server_process : Option Proc
  playwright : Option Nat
  browser : Option BrowserH
  page : Option Unit
  commands : List String
  ws_endpoint : Option String
  owner_thread_id : Option Nat
  worker_alive : Bool
deriving DecidableEq

/-- The state built by `__init__` (lines 11-22): everything empty, no worker. -/
def initState : ControllerState :=
  { mcp_server_process := none, playwright := none, browser := none,
    page := none, commands := [], ws_endpoint := none,
    owner_thread_id := none, worker_alive := false }

/-- `_ensure_worker` (lines 123-144): if a worker thread is alive, do nothing;
otherwise start a fresh thread whose loop's first action records its own
identity (`tid`, the id of the newly spawned thread) as the owner.  Nothing
else of the state is touched: the handles are retained as they are. -/
def ensure_worker (s : ControllerState) (tid : Nat) : ControllerState :=
  if s.worker_alive then s
  else { s with worker_alive := true, owner_thread_id := some tid }

/-- `self.browser and self.browser.is_connected()`. -/
def browserConnected (s : ControllerState) : Bool :=
  match s.browser with
  | some b => b.connected
  | none => false

/-- The guard `not self.page or not self.browser or not self.browser.is_connected()`
used by `goto`, `get_page_contents` and `summarize_page` (negated). -/
def pageAvailable (s : ControllerState) : Bool :=
  s.page.isSome && s.browser.isSome && browserConnected s

/-- The invariant claimed by the specification: the browser/page handles are
non-null only if the driver handle is non-null and was created by the current
owner thread. -/
def handlesOwnedInv (s : ControllerState) : Bool :=
  !(s.browser.isSome || s.page.isSome) ||
    (match s.playwright, s.owner_thread_id with
     | some creator, some owner => creator == owner
     | _, _ => false)

/-- Outcomes of the external sub-steps of teardown: whether `browser.close()`
and `playwright.stop()` return normally. -/
structure ShutdownWorld where
  browserCloseOk : Bool
  playwrightStopOk : Bool
deriving DecidableEq

/-- The `_do_close` closure of `shutdown` (lines 251-260), as run on the worker
with its exception re-raised to (and swallowed by) the caller: if
`browser.close()` or `playwright.stop()` raises, the assignments that follow
are not executed, so the handles stay set; on full success the three handles
are cleared and the log entry is appended. -/
def do_close (s : ControllerState) (w : ShutdownWorld) : ControllerState :=
  if browserConnected s && !w.browserCloseOk then s
  else if s.playwright.isSome && !w.playwrightStopOk then s
  else { s with browser := none, page := none, playwright := none,
                commands := s.commands ++ ["# Shutdown Playwright"] }

/-- The `finally` block of `shutdown` (lines 276-284): stop and discard the
worker thread, clear the owner identity, append the completion marker.  It
runs whether or not the `try` body raised. -/
def teardownWorker (s : ControllerState) : ControllerState :=
  { s with worker_alive := false, owner_thread_id := none,
           commands := s.commands ++ ["# Shutdown complete"] }

/-- `shutdown` (lines 250-285).  `tid` is the identity a fresh worker thread
would get if `_call_on_worker` has to start one.  The close step's failures
are swallowed (`except Exception: pass`).  Signalling the server process group
(`os.killpg(os.getpgid(pid), SIGTERM)`, with SIGKILL escalation after a
bounded wait) succeeds when the process is alive; on an exited-and-reaped
process `os.getpgid` raises `ProcessLookupError`, which no handler catches:
the `finally` block still runs, but the exception propagates and the
`mcp_server_process`/`ws_endpoint` fields are left unchanged. -/
def shutdown (s0 : ControllerState) (tid : Nat) (w : ShutdownWorld) :
    ControllerState × Except PyErr String :=
  let s := ensure_worker s0 tid
  let s1 := do_close s w
  match s1.mcp_server_process with
  | some p =>
      if p.alive then
        (teardownWorker { s1 with mcp_server_process := none, ws_endpoint := none },
         Except.ok "Shutdown complete.")
      else
        (teardownWorker s1, Except.error PyErr.processLookupError)
  | none =>
      (teardownWorker { s1 with mcp_server_process := none, ws_endpoint := none },
       Except.ok "Shutdown complete.")

/-- What the polling loop of `launch_mcp_server` observes before its deadline:
the `ws://` endpoint appears in the log; or the process exits early (so
`poll()` reaps it) with the given log tail; or the timeout elapses with the
process still running and the given log tail. -/
inductive LaunchOutcome where
  | endpointFound (addr : String)
  | earlyExit (tail : String)
  | timeoutNoEndpoint (tail : String)
deriving DecidableEq

/-- The body of `launch_mcp_server` after its already-running check (lines
34-104): spawn the server process, then poll its log.  On success it records
the endpoint and a log comment.  On early process exit or timeout it calls
`self.shutdown()` and then raises a `RuntimeError` whose message ends with the
captured log tail — but if that `shutdown()` call itself raises (the
early-exit case: the process was reaped by `poll()`, so `os.getpgid` raises),
the `RuntimeError` is never constructed and the shutdown failure propagates
instead. -/
def launchSpawn (s : ControllerState) (tid : Nat) (o : LaunchOutcome)
    (w : ShutdownWorld) : ControllerState × Except PyErr String :=
  let s0 : ControllerState :=
    { s with mcp_server_process := some { alive := true } }
  match o with
  | LaunchOutcome.endpointFound addr =>
      ({ s0 with ws_endpoint := some addr,
                 commands := s0.commands ++ ["# Launched MCP server at " ++ addr] },
       Except.ok ("MCP server launched. Endpoint: " ++ addr))
  | LaunchOutcome.earlyExit tail =>
      let s1 : ControllerState :=
        { s0 with mcp_server_process := some { alive := false } }
      let sd := shutdown s1 tid w
      match sd.2 with
      | Except.ok _ =>
          (sd.1, Except.error (PyErr.runtimeError
            ("Failed to launch MCP server: process exited early.\nLast log lines:\n"
              ++ tail)))
      | Except.error e => (sd.1, Except.error e)
  | LaunchOutcome.timeoutNoEndpoint tail =>
      let sd := shutdown s0 tid w
      match sd.2 with
      | Except.ok _ =>
          (sd.1, Except.error (PyErr.runtimeError
            ("Failed to launch MCP server: timeout waiting for endpoint.\nHint: Ensure Node.js and npx are available, and try increasing MCP_LAUNCH_TIMEOUT.\nLast log lines:\n"
              ++ tail)))
      | Except.error e => (sd.1, Except.error e)

/-- `launch_mcp_server` (lines 24-104): return early if a live server process
exists, otherwise spawn and poll (`launchSpawn`). -/
def launch_mcp_server (s : ControllerState) (tid : Nat) (o : LaunchOutcome)
    (w : ShutdownWorld) : ControllerState × Except PyErr String :=
  match s.mcp_server_process with
  | some p =>
      if p.alive then (s, Except.ok "Server already running.")
      else launchSpawn s tid o w
  | none => launchSpawn s tid o w

/-- `connect` (lines 158-165), dispatched through the gate: `_call_on_worker`
first ensures a worker (identity `tid` if a fresh one is started); the body
runs on the owner thread, so a driver it creates is bound to that thread. -/
def connect (s0 : ControllerState) (tid : Nat) : ControllerState × String :=
  let s := ensure_worker s0 tid
  if s.playwright.isSome then (s, "Playwright instance already exists.")
  else ({ s with playwright := s.owner_thread_id,
                 commands := s.commands ++ ["p = sync_playwright().start()"] },
        "Playwright context started.")

/-- Outcome of `playwright.chromium.connect(ws_endpoint)`: success, or the
`Error` message it raises. -/
structure OpenWorld where
  connectOk : Bool
  errMsg : String
deriving DecidableEq

/-- `open_browser` (lines 167-189), dispatched through the gate.  Without an
endpoint it returns a diagnostic; it lazily starts the driver on the worker
thread; if the browser is already connected it returns the already-open
status and changes nothing; otherwise it connects, binds an existing or fresh
page, and appends the two log entries — or returns the failure message if the
driver raises `Error`. -/
def open_browser (s0 : ControllerState) (tid : Nat) (w : OpenWorld) :
    ControllerState × String :=
  let s := ensure_worker s0 tid
  match s.ws_endpoint with
  | none => (s, "MCP server not launched.")
  | some ws =>
      let s :=
        if s.playwright.isSome then s
        else { s with playwright := s.owner_thread_id,
                      commands := s.commands ++ ["p = sync_playwright().start()"] }
      if browserConnected s then (s, "Browser is already open and connected.")
      else if w.connectOk then
        ({ s with browser := some { connected := true }, page := some (),
                  commands := s.commands ++
                    ["browser = playwright.chromium.connect('" ++ ws ++ "')",
                     "page = browser.contexts[0].pages[0] if browser.contexts[0].pages else browser.contexts[0].new_page()"] },
         "Browser opened and connected successfully.")
      else (s, "Failed to connect to browser: " ++ w.errMsg)

/-- The scheme normalisation inside `goto` (lines 195-198): prefix `http://`
exactly when the url does not start with the literal `http`. -/
def normalize_url (url : String) : String :=
  if startsWithStr url "http" then url else "http://" ++ url

/-- `goto` (lines 191-203), dispatched through the gate: diagnostic string if
no page is available; otherwise navigate to the normalised url, append the
navigation to the command log, and return the status string.  (The navigation
itself carries a bounded timeout and is assumed to return; a navigation
failure would propagate as an exception, which is outside this operation's
return-value contract.) -/
def goto (s0 : ControllerState) (tid : Nat) (url : String) :
    ControllerState × String :=
  let s := ensure_worker s0 tid
  if !(pageAvailable s) then (s, "Page not available. Please open a browser first.")
  else
    let u := normalize_url url
    ({ s with commands := s.commands ++ ["page.goto('" ++ u ++ "')"] },
     "Navigated to " ++ u)

/-- `close_browser` (lines 240-248), dispatched through the gate: close the
browser if connected, then unconditionally clear both handles and log. -/
def close_browser (s0 : ControllerState) (tid : Nat) : ControllerState × String :=
  let s := ensure_worker s0 tid
  ({ s with browser := none, page := none,
            commands := s.commands ++ ["browser.close()"] },
   "Browser closed.")

/-!
`summarize_page` (lines 220-238) and Python name resolution for its body.
-/

/-- The names bound at module level in `playwright_controller.py`: the
imports of lines 1-8 and the class of line 10. -/
def moduleGlobals : List String :=
  [ "subprocess", "time", "re", "os", "signal", "sync_playwright",
    "Playwright", "Browser", "Page", "Error", "threading", "queue",
    "PlaywrightController" ]

/-- The local names of the `_do` closure inside `summarize_page`: per Python
scoping, exactly the names assigned somewhere in its body (`text`, `sample`,
`summary`). -/
def summarizeDoLocals : List String := [ "text", "sample", "summary" ]

/-- The names of the enclosing `summarize_page` scope visible to `_do`:
its parameters and the nested function itself. -/
def summarizeEnclosing : List String := [ "self", "instructions", "_do" ]

/-- The Python builtins the module's code refers to. -/
def pyBuiltins : List String :=
  [ "len", "print", "any", "int", "open", "max", "str" ]

/-- Python name resolution as seen from `_do` inside `summarize_page`:
local, enclosing, global or builtin. -/
def resolvable (nm : String) : Bool :=
  summarizeDoLocals.contains nm || summarizeEnclosing.contains nm ||
    moduleGlobals.contains nm || pyBuiltins.contains nm

/-- The free names the body of `_do` dereferences after extracting the page
text, in evaluation order: `max_chars` (line 231), then `paras` (line 233),
then `headings` (line 235). -/
def summarizeFreeNames : List String := [ "max_chars", "paras", "headings" ]

/-- The body of `_do` in `summarize_page` after the availability guard and
text extraction: evaluating `len(text) > max_chars` dereferences the first of
`summarizeFreeNames`; the first unresolvable one raises `NameError`.  (The
`none` branch is unreachable: `max_chars` is bound in no scope of the module,
so no summary string is ever built; the placeholder value returned there never
arises.) -/
def summarizeBody (instructions : String) : Except PyErr String :=
  match summarizeFreeNames.find? (fun nm => !(resolvable nm)) with
  | some nm => Except.error (PyErr.nameError nm)
  | none => Except.ok ("Summary instructions: " ++ instructions ++ "\n")

/-- `summarize_page` (lines 220-238), dispatched through the gate: diagnostic
string when no page is available; otherwise the body runs and its outcome
(value or exception) is what the worker loop wraps onto the result queue. -/
def summarize_page (s0 : ControllerState) (tid : Nat) (instructions : String) :
    ControllerState × Except PyErr String :=
  let s := ensure_worker s0 tid
  if !(pageAvailable s) then
    (s, Except.ok "Page not available. Please open a browser first.")
  else (s, summarizeBody instructions)

/-!
`save_script` (lines 290-320).
-/

/-- The filename normalisation of `save_script` (lines 291-292). -/
def ensure_py (filename : String) : String :=
  if endsWithStr filename ".py" then filename else filename ++ ".py"

/-- The filter of `save_script` (lines 302-306): an entry of `commands` is
kept unless it is a comment, or mentions `connect_over_cdp`,
`playwright.stop`, `browser.close` or `p = sync_playwright`, or mentions the
page-binding idioms `browser.contexts[0].pages[0]` / `new_page()`. -/
def keep_cmd (cmd : String) : Bool :=
  !(startsWithStr cmd "#" || containsSub "connect_over_cdp" cmd ||
    containsSub "playwright.stop" cmd || containsSub "browser.close" cmd ||
    containsSub "p = sync_playwright" cmd) &&
  !(containsSub "browser.contexts[0].pages[0]" cmd || containsSub "new_page()" cmd)

/-- The fixed template text above the filtered commands (lines 294-299). -/
def scriptHeader : String :=
  "from playwright.sync_api import sync_playwright\n\n" ++
  "def run(playwright):\n" ++
  "    # This script launches a new browser instance and is not connected to the MCP server.\n" ++
  "    browser = playwright.chromium.launch(headless=False)\n" ++
  "    context = browser.new_context()\n" ++
  "    page = context.new_page()\n\n"

/-- The fixed template text below the filtered commands (lines 311-315). -/
def scriptFooter : String :=
  "\n\n    print('Script finished. Closing browser.')\n" ++
  "    context.close()\n" ++
  "    browser.close()\n\n" ++
  "with sync_playwright() as playwright:\n" ++
  "    run(playwright)\n"

/-- `save_script` (lines 290-320): the filename actually written to (default
extension appended if absent), the full generated script text (template
around the filtered, indented command log), and the returned status string. -/
def save_script (commands : List String) (filename : String) :
    String × String × String :=
  let fname := ensure_py filename
  let user_commands := (commands.filter keep_cmd).map (fun c => "    " ++ c)
  let content := scriptHeader ++ String.intercalate "\n" user_commands ++ scriptFooter
  (fname, content, "Script saved to " ++ fname)

/-!
Reachability of controller states: the transitions are the modelled
operations, quantified over caller inputs and external-world outcomes, plus
the external event of the worker thread dying unexpectedly.
-/

/-- One controller transition: a lifecycle operation invoked by some caller
(with arbitrary fresh-worker identity and external-world outcome), or the
worker thread dying unexpectedly (which changes no field of the session
state other than thread liveness). -/
inductive CtrlStep : ControllerState → ControllerState → Prop where
  | launchStep (s : ControllerState) (tid : Nat) (o : LaunchOutcome)
      (w : ShutdownWorld) : CtrlStep s (launch_mcp_server s tid o w).1
  | connectStep (s : ControllerState) (tid : Nat) : CtrlStep s (connect s tid).1
  | openStep (s : ControllerState) (tid : Nat) (w : OpenWorld) :
      CtrlStep s (open_browser s tid w).1
  | gotoStep (s : ControllerState) (tid : Nat) (url : String) :
      CtrlStep s (goto s tid url).1
  | closeStep (s : ControllerState) (tid : Nat) : CtrlStep s (close_browser s tid).1
  | summarizeStep (s : ControllerState) (tid : Nat) (instructions : String) :
      CtrlStep s (summarize_page s tid instructions).1
  | shutdownStep (s : ControllerState) (tid : Nat) (w : ShutdownWorld) :
      CtrlStep s (shutdown s tid w).1
  | workerDies (s : ControllerState) (h : s.worker_alive = true) :
      CtrlStep s { s with worker_alive := false }

/-- Controller states reachable from construction. -/
inductive CtrlReach : ControllerState → Prop where
  | init : CtrlReach initState
  | step {s s' : ControllerState} : CtrlReach s → CtrlStep s s' → CtrlReach s'

/-!
Concrete states and worlds used by the theorems below.
-/

/-- A teardown world in which every external sub-step succeeds. -/
def wAllOk : ShutdownWorld := { browserCloseOk := true, playwrightStopOk := true }

/-- An open-browser world in which the remote connection succeeds. -/
def wOpenOk : OpenWorld := { connectOk := true, errMsg := "" }

/-- The state after a successful `launch_mcp_server` on a fresh controller. -/
def s_launch : ControllerState :=
  (launch_mcp_server initState 0
    (LaunchOutcome.endpointFound "ws://127.0.0.1:9999/abc") wAllOk).1

/-- The state after `open_browser` run on worker thread 1: driver created by
thread 1, browser connected, page bound. -/
def s_open : ControllerState := (open_browser s_launch 1 wOpenOk).1

/-- `s_open` after the worker thread dies unexpectedly: the handles are still
set, the stale owner identity is still recorded. -/
def s_dead : ControllerState := { s_open with worker_alive := false }

/-- The state after the next gate-dispatched operation (`goto`) following the
worker death: `_ensure_worker` has started a fresh worker (thread 2) without
any shutdown, so the driver handle created by thread 1 survives under owner
thread 2. -/
def s_bad : ControllerState := (goto s_dead 2 "example.com").1

/-- A mid-session state: live server process, driver created by (and owned
by) worker thread 1, connected browser, bound page, one navigation logged. -/
def s_full : ControllerState :=
  { mcp_server_process := some { alive := true }, playwright := some 1,
    browser := some { connected := true }, page := some (),
    commands := ["page.goto('http://example.com')"],
    ws_endpoint := some "ws://127.0.0.1:9999/abc",
    owner_thread_id := some 1, worker_alive := true }

/-- `s_full` with the server process already exited and reaped. -/
def s_deadproc : ControllerState :=
  { s_full with mcp_server_process := some { alive := false } }

/-- The command log of the specification's round-trip session, with the
entries as the controller's operations actually append them. -/
def session_log : List String :=
  [ "p = sync_playwright().start()",
    "browser = playwright.chromium.connect('ws://127.0.0.1:9999/abc')",
    "page = browser.contexts[0].pages[0] if browser.contexts[0].pages else browser.contexts[0].new_page()",
    "page.goto('http://example.com')",
    "browser.close()" ]

/-- Gate trace, step 1: caller 1 enqueues its operation (producing value 11). -/
def g1 : GateCfg := submit1F initGate (Except.ok 11)

/-- Gate trace, step 2: caller 2 enqueues its operation (producing value 22)
before the worker has served caller 1. -/
def g2 : GateCfg := submit2F g1 (Except.ok 22)

/-- Gate trace, step 3: the worker executes caller 1's task and puts its
result pair on the shared result queue. -/
def g3 : GateCfg := workF g2

/-- Gate trace, step 4: caller 2's blocking `get()` returns first and takes
the pair produced for caller 1's operation. -/
def g4 : GateCfg := recv2F g3

/-!
Helper lemmas (shared; none of them is a claim's theorem).
-/

/-- `_ensure_worker` never touches the server-process handle. -/
lemma ensure_worker_mcp (s : ControllerState) (tid : Nat) :
    (ensure_worker s tid).mcp_server_process = s.mcp_server_process := by
  unfold ensure_worker; split <;> rfl

/-- `_do_close` never touches the server-process handle. -/
lemma do_close_mcp (s : ControllerState) (w : ShutdownWorld) :
    (do_close s w).mcp_server_process = s.mcp_server_process := by
  unfold do_close; split
  · rfl
  · split <;> rfl

/-- The gate configuration `g4` is reachable by an interleaving of the gate's
own steps. -/
lemma gateReach_g4 : GateReach g4 :=
  GateReach.step
    (GateReach.step
      (GateReach.step
        (GateReach.step GateReach.init
          (GateStep.submit1 initGate (Except.ok 11) rfl))
        (GateStep.submit2 g1 (Except.ok 22) (by decide)))
      (GateStep.work g2 (by decide) (by decide)))
    (GateStep.recv2 g3 (Except.ok 22) (by decide) (by decide))

/-!
Theorems settling the claims.
-/

/-- C1 counterexample: the claimed recovery does not happen.  A session is
reachable in which, after the worker thread that created the driver handle
has died, the next gate-dispatched operation (`goto`) simply starts a fresh
worker (thread 2) — no shutdown, no discarding of state: the browser and page
handles survive, the driver handle created by dead thread 1 survives, and the
invariant "browserHandle/pageHandle are non-null only if driverHandle is
non-null and was created by the current owner thread" is false in that
reachable state. -/
theorem c1_counterexample :
    CtrlReach s_bad ∧
    s_bad.browser = some { connected := true } ∧
    s_bad.page = some () ∧
    s_bad.playwright = some 1 ∧
    s_bad.owner_thread_id = some 2 ∧
    s_bad.worker_alive = true ∧
    handlesOwnedInv s_bad = false := by
  refine ⟨?_, by decide, by decide, by decide, by decide, by decide, by decide⟩
  exact CtrlReach.step
    (CtrlReach.step
      (CtrlReach.step
        (CtrlReach.step CtrlReach.init
          (CtrlStep.launchStep initState 0
            (LaunchOutcome.endpointFound "ws://127.0.0.1:9999/abc") wAllOk))
        (CtrlStep.openStep s_launch 1 wOpenOk))
      (CtrlStep.workerDies s_open (by decide)))
    (CtrlStep.gotoStep s_dead 2 "example.com")

/-- C1 amended: when the worker thread is not alive, the next dispatch's
`_ensure_worker` starts a fresh worker and rebinds the owner identity to it,
but performs no shutdown: the browser, page and driver handles (and all other
session state) are retained unchanged. -/
theorem c1_restart_keeps_handles (s : ControllerState) (tid : Nat)
    (h : s.worker_alive = false) :
    ensure_worker s tid =
      { s with worker_alive := true, owner_thread_id := some tid } := by
  simp [ensure_worker, h]

/-- Witness for `c1_restart_keeps_handles` at the concrete dead-worker state. -/
theorem c1_restart_keeps_handles_witness :
    s_dead.worker_alive = false ∧
    ensure_worker s_dead 2 =
      { s_dead with worker_alive := true, owner_thread_id := some 2 } :=
  ⟨by decide, c1_restart_keeps_handles s_dead 2 (by decide)⟩

/-- C2 counterexample: with two concurrent cross-thread callers, a reachable
interleaving exists (caller 1 submits, caller 2 submits, the worker executes
caller 1's task, caller 2's `get()` returns first) in which caller 2's
blocking wait returns the pair produced for caller 1's operation — not the
pair its own operation produced. -/
theorem c2_counterexample :
    GateReach g4 ∧
    g4.c2 = CallerSt.done (Except.ok 22) (WireRes.success 11) ∧
    g4.c1 = CallerSt.waiting (Except.ok 11) ∧
    encodeResult (Except.ok 22) ≠ (WireRes.success 11 : WireRes String Nat) :=
  ⟨gateReach_g4, by decide, by decide, by decide⟩

/-- C2 amended: the response channel is a shared FIFO with no per-caller
matching.  In every reachable gate configuration, the pairs delivered to
callers followed by the pairs still queued are exactly the wrapped outcomes
of the executed tasks in execution order, and tasks are executed in
submission order — so a caller receives its own operation's pair only when no
other caller's pair is ahead of it in the queue. -/
theorem c2_fifo_delivery (c : GateCfg) (h : GateReach c) :
    c.delivered ++ c.results = c.executed.map encodeResult ∧
    c.executed ++ c.pending = c.submitted := by
  induction h with
  | init => exact ⟨rfl, rfl⟩
  | @step a b hr hst ih =>
      cases hst with
      | submit1 t hc =>
          refine ⟨by simpa [submit1F] using ih.1, ?_⟩
          simp only [submit1F]
          rw [← List.append_assoc, ih.2]
      | submit2 t hc =>
          refine ⟨by simpa [submit2F] using ih.1, ?_⟩
          simp only [submit2F]
          rw [← List.append_assoc, ih.2]
      | work h1 h2 =>
          cases hp : a.pending with
          | nil => exact absurd hp h2
          | cons t rest =>
              constructor
              · simp only [workF, hp, List.map_append]
                rw [← List.append_assoc, ih.1]
                simp
              · simp only [workF, hp]
                rw [List.append_assoc]
                simpa using (hp ▸ ih.2)
      | recv1 t h1 h2 =>
          cases hres : a.results with
          | nil => exact absurd hres h2
          | cons r rest =>
              constructor
              · simp only [recv1F, h1, hres]
                rw [List.append_assoc]
                simpa using (hres ▸ ih.1)
              · simpa [recv1F, h1, hres] using ih.2
      | recv2 t h1 h2 =>
          cases hres : a.results with
          | nil => exact absurd hres h2
          | cons r rest =>
              constructor
              · simp only [recv2F, h1, hres]
                rw [List.append_assoc]
                simpa using (hres ▸ ih.1)
              · simpa [recv2F, h1, hres] using ih.2

/-- Witness for `c2_fifo_delivery` at the reachable configuration `g4`. -/
theorem c2_fifo_delivery_witness :
    GateReach g4 ∧
    (g4.delivered ++ g4.results = g4.executed.map encodeResult ∧
     g4.executed ++ g4.pending = g4.submitted) :=
  ⟨gateReach_g4, c2_fifo_delivery g4 gateReach_g4⟩

/-- C3: for an operation dispatched cross-thread while no other call is in
flight, the owner-thread loop catches the operation's outcome at the loop
boundary and puts the `(success-flag, value-or-error)` pair on the response
channel; the waiting caller's unwrap returns the value on success and
re-raises the error on failure (`deliver (encodeResult t) = t`); the loop
does not terminate on operation failure: it stays unstopped and processes the
next submitted operation. -/
theorem c3_loop_catches_and_delivers (t u : Except String Nat) (c : GateCfg)
    (h1 : c.c1 = CallerSt.idle) (h2 : c.c2 = CallerSt.idle)
    (h3 : c.pending = []) (h4 : c.results = [])
    (h5 : c.workerStopped = false) :
    (recv1F (workF (submit1F c t))).c1 = CallerSt.done t (encodeResult t) ∧
    deliver (encodeResult t) = t ∧
    (recv1F (workF (submit1F c t))).workerStopped = false ∧
    (workF (submit2F (recv1F (workF (submit1F c t))) u)).results =
      [encodeResult u] := by
  refine ⟨?_, by cases t <;> rfl, ?_, ?_⟩ <;>
    simp [submit1F, submit2F, workF, recv1F, h1, h2, h3, h4, h5]

/-- Witness for `c3_loop_catches_and_delivers`: from the fresh gate, an
operation that raises `"boom"` is delivered back as that raised error and the
loop goes on to serve a second operation. -/
theorem c3_loop_catches_and_delivers_witness :
    (initGate.c1 = CallerSt.idle ∧ initGate.c2 = CallerSt.idle ∧
     initGate.pending = [] ∧ initGate.results = [] ∧
     initGate.workerStopped = false) ∧
    ((recv1F (workF (submit1F initGate (Except.error "boom")))).c1 =
       CallerSt.done (Except.error "boom")
         (encodeResult (Except.error "boom" : Except String Nat)) ∧
     deliver (encodeResult (Except.error "boom" : Except String Nat)) =
       Except.error "boom" ∧
     (recv1F (workF (submit1F initGate (Except.error "boom")))).workerStopped = false ∧
     (workF (submit2F (recv1F (workF (submit1F initGate (Except.error "boom"))))
        (Except.ok 7))).results = [encodeResult (Except.ok 7)]) :=
  ⟨⟨rfl, rfl, rfl, rfl, rfl⟩,
   c3_loop_catches_and_delivers (Except.error "boom") (Except.ok 7) initGate
     rfl rfl rfl rfl rfl⟩

/-- Whether signalling the server process group can succeed: true when there
is no process, or the recorded process is still alive (so `os.getpgid` on its
pid does not raise). -/
def serverSignalOk (s : ControllerState) : Bool :=
  match s.mcp_server_process with
  | some p => p.alive
  | none => true

/-- C4 counterexample: from a state whose server-process handle refers to an
already-exited (reaped) process, `shutdown` raises `ProcessLookupError`
instead of returning — and leaves `mcp_server_process` and `ws_endpoint`
uncleared (only the `finally` worker teardown ran). -/
theorem c4_counterexample :
    (shutdown s_deadproc 1 wAllOk).2 = Except.error PyErr.processLookupError ∧
    (shutdown s_deadproc 1 wAllOk).1.mcp_server_process = some { alive := false } ∧
    (shutdown s_deadproc 1 wAllOk).1.ws_endpoint = some "ws://127.0.0.1:9999/abc" ∧
    (shutdown s_deadproc 1 wAllOk).1.worker_alive = false := by
  exact ⟨by decide, by decide, by decide, by decide⟩

/-- C4 amended: `shutdown` swallows failures of the browser-close/driver-stop
step and always returns `"Shutdown complete."` whenever signalling the server
process cannot fail (no process recorded, or the process still alive) — for
every starting state and every outcome of the close/stop sub-steps.  Only a
failure of the process-group signalling step escapes. -/
theorem c4_shutdown_swallows_substep_failures (s : ControllerState) (tid : Nat)
    (w : ShutdownWorld) (h : serverSignalOk s = true) :
    (shutdown s tid w).2 = Except.ok "Shutdown complete." := by
  have key : (do_close (ensure_worker s tid) w).mcp_server_process =
      s.mcp_server_process := by
    rw [do_close_mcp, ensure_worker_mcp]
  unfold shutdown
  simp only [key]
  cases hm : s.mcp_server_process with
  | none => rfl
  | some p =>
      have hp : p.alive = true := by
        unfold serverSignalOk at h
        rw [hm] at h
        simpa using h
      simp [hp]

/-- Witness for `c4_shutdown_swallows_substep_failures`: a mid-session state
with a live server process, with both close sub-steps failing. -/
theorem c4_shutdown_swallows_substep_failures_witness :
    serverSignalOk s_full = true ∧
    (shutdown s_full 1
      { browserCloseOk := false, playwrightStopOk := false }).2 =
      Except.ok "Shutdown complete." :=
  ⟨by decide, c4_shutdown_swallows_substep_failures s_full 1
    { browserCloseOk := false, playwrightStopOk := false } (by decide)⟩

/-- C5 counterexample: `shutdown` returns `"Shutdown complete."` but does not
clear the command log — after a successful shutdown of a session that logged
one navigation, the log still holds that entry plus the two shutdown
markers. -/
theorem c5_counterexample :
    (shutdown s_full 1 wAllOk).2 = Except.ok "Shutdown complete." ∧
    (shutdown s_full 1 wAllOk).1.commands =
      ["page.goto('http://example.com')", "# Shutdown Playwright",
       "# Shutdown complete"] ∧
    (shutdown s_full 1 wAllOk).1.commands ≠ [] := by
  exact ⟨by decide, by decide, by decide⟩

/-- C5 amended: when every sub-step succeeds, `shutdown` returns
`"Shutdown complete."` and clears `mcp_server_process`, `playwright`,
`browser`, `page` and `ws_endpoint`, stops the worker thread and clears the
owner identity — but the command log is retained: it equals the session's log
with the `"# Shutdown Playwright"` and `"# Shutdown complete"` markers
appended. -/
theorem c5_shutdown_clears_state (s : ControllerState) (tid : Nat)
    (w : ShutdownWorld) (h1 : serverSignalOk s = true)
    (h2 : w.browserCloseOk = true) (h3 : w.playwrightStopOk = true) :
    shutdown s tid w =
      ({ mcp_server_process := none, playwright := none, browser := none,
         page := none,
         commands := s.commands ++ ["# Shutdown Playwright", "# Shutdown complete"],
         ws_endpoint := none, owner_thread_id := none, worker_alive := false },
       Except.ok "Shutdown complete.") := by
  unfold shutdown do_close teardownWorker ensure_worker serverSignalOk at *
  cases hw : s.worker_alive <;>
    cases hm : s.mcp_server_process <;>
      rw [hm] at h1 <;> simp_all

/-- Witness for `c5_shutdown_clears_state` at the mid-session state. -/
theorem c5_shutdown_clears_state_witness :
    (serverSignalOk s_full = true ∧ wAllOk.browserCloseOk = true ∧
     wAllOk.playwrightStopOk = true) ∧
    shutdown s_full 1 wAllOk =
      ({ mcp_server_process := none, playwright := none, browser := none,
         page := none,
         commands := s_full.commands ++
           ["# Shutdown Playwright", "# Shutdown complete"],
         ws_endpoint := none, owner_thread_id := none, worker_alive := false },
       Except.ok "Shutdown complete.") :=
  ⟨⟨by decide, by decide, by decide⟩,
   c5_shutdown_clears_state s_full 1 wAllOk (by decide) (by decide) (by decide)⟩

set_option maxRecDepth 40000 in
/-- C6, evaluation at the failing input: for the round-trip session's command
log, `save_script` appends the default extension and keeps exactly one
navigation line — but it also keeps the connect line, because its filter
checks for `connect_over_cdp` while `open_browser` logs
`playwright.chromium.connect(...)`; the generated "standalone" script thus
contains a connect line, contradicting both the claim and the script's own
embedded comment that it is not connected to the MCP server. -/
theorem c6_connect_line_retained :
    (save_script session_log "replay").1 = "replay.py" ∧
    session_log.filter keep_cmd =
      [ "browser = playwright.chromium.connect('ws://127.0.0.1:9999/abc')",
        "page.goto('http://example.com')" ] ∧
    containsSub "playwright.chromium.connect" (save_script session_log "replay").2.1
      = true ∧
    containsSub "is not connected to the MCP server"
      (save_script session_log "replay").2.1 = true := by
  exact ⟨by decide, by decide, by decide, by decide⟩

set_option maxRecDepth 40000 in
/-- C7, evaluation at the failing input: when the server process exits early
(so the polling loop's `poll()` has reaped it), `launch_mcp_server` calls
`self.shutdown()`, which itself raises `ProcessLookupError` from
`os.getpgid`; the `RuntimeError` carrying the log tail is never constructed,
so the error that propagates has no diagnostic log tail.  In the timeout case
(process still alive) the claimed behaviour does hold: shutdown succeeds and
the raised `RuntimeError`'s message contains the log tail. -/
theorem c7_early_exit_raises_without_diagnostics :
    (launch_mcp_server initState 3
        (LaunchOutcome.earlyExit "Error: spawn npx ENOENT") wAllOk).2 =
      Except.error PyErr.processLookupError ∧
    (Except.error PyErr.processLookupError : Except PyErr String) ≠
      Except.error (PyErr.runtimeError
        ("Failed to launch MCP server: process exited early.\nLast log lines:\n"
          ++ "Error: spawn npx ENOENT")) ∧
    (launch_mcp_server initState 3
        (LaunchOutcome.timeoutNoEndpoint "Error: spawn npx ENOENT") wAllOk).2 =
      Except.error (PyErr.runtimeError
        ("Failed to launch MCP server: timeout waiting for endpoint.\nHint: Ensure Node.js and npx are available, and try increasing MCP_LAUNCH_TIMEOUT.\nLast log lines:\n"
          ++ "Error: spawn npx ENOENT")) := by
  exact ⟨by decide, by decide, by decide⟩

/-- C8 counterexample: `goto` does not normalise every scheme-less url — the
check is `url.startswith("http")`, so the scheme-less `"httpbin.org"` is
passed through unchanged and the returned status names a url with no
scheme. -/
theorem c8_counterexample :
    (goto s_full 1 "httpbin.org").2 = "Navigated to httpbin.org" ∧
    containsSub "://" "httpbin.org" = false ∧
    (goto s_full 1 "httpbin.org").2 ≠ "Navigated to http://httpbin.org" := by
  exact ⟨by decide, by decide, by decide⟩

/-- C8 amended: when a page exists and the browser is connected, `goto`
prefixes `"http://"` exactly when the url does not start with the literal
`"http"` (so `goto("example.com")` yields `"Navigated to http://example.com"`,
but scheme-less urls that begin with `"http"` are left unmodified), navigates
to that url, appends the navigation to the command log, and returns
`"Navigated to "` followed by it; with no page available it returns the
diagnostic string instead of raising. -/
theorem c8_goto_normalization (s : ControllerState) (tid : Nat) (url : String)
    (hw : s.worker_alive = true) :
    (pageAvailable s = true →
      goto s tid url =
        ({ s with commands :=
             s.commands ++ ["page.goto('" ++ normalize_url url ++ "')"] },
         "Navigated to " ++ normalize_url url)) ∧
    (pageAvailable s = false →
      goto s tid url = (s, "Page not available. Please open a browser first.")) ∧
    normalize_url "example.com" = "http://example.com" := by
  refine ⟨fun hp => ?_, fun hp => ?_, by decide⟩ <;>
    simp [goto, ensure_worker, hw, hp]

/-- Witness for `c8_goto_normalization` at the mid-session state and the
specification's example url. -/
theorem c8_goto_normalization_witness :
    s_full.worker_alive = true ∧
    ((pageAvailable s_full = true →
      goto s_full 1 "example.com" =
        ({ s_full with commands :=
             s_full.commands ++
               ["page.goto('" ++ normalize_url "example.com" ++ "')"] },
         "Navigated to " ++ normalize_url "example.com")) ∧
     (pageAvailable s_full = false →
      goto s_full 1 "example.com" =
        (s_full, "Page not available. Please open a browser first.")) ∧
     normalize_url "example.com" = "http://example.com") :=
  ⟨by decide, c8_goto_normalization s_full 1 "example.com" (by decide)⟩

/-- C9: `open_browser` is idempotent once connected — in a state with an
endpoint, a started driver, a live worker and a connected browser, it
returns the already-open status and leaves the state (browser handle,
page handle, command log) completely unchanged, and calling it again does
exactly the same. -/
theorem c9_open_browser_idempotent (s : ControllerState) (tid : Nat)
    (w : OpenWorld) (h1 : s.ws_endpoint.isSome = true)
    (h2 : s.playwright.isSome = true) (h3 : browserConnected s = true)
    (h4 : s.worker_alive = true) :
    open_browser s tid w = (s, "Browser is already open and connected.") ∧
    open_browser (open_browser s tid w).1 tid w =
      (s, "Browser is already open and connected.") := by
  have e1 : open_browser s tid w = (s, "Browser is already open and connected.") := by
    cases hws : s.ws_endpoint with
    | none => rw [hws] at h1; simp at h1
    | some ws => simp [open_browser, ensure_worker, h4, hws, h2, h3]
  exact ⟨e1, by rw [e1]; exact e1⟩

/-- Witness for `c9_open_browser_idempotent` at the mid-session state. -/
theorem c9_open_browser_idempotent_witness :
    (s_full.ws_endpoint.isSome = true ∧ s_full.playwright.isSome = true ∧
     browserConnected s_full = true ∧ s_full.worker_alive = true) ∧
    (open_browser s_full 1 wOpenOk =
       (s_full, "Browser is already open and connected.") ∧
     open_browser (open_browser s_full 1 wOpenOk).1 1 wOpenOk =
       (s_full, "Browser is already open and connected.")) :=
  ⟨⟨by decide, by decide, by decide, by decide⟩,
   c9_open_browser_idempotent s_full 1 wOpenOk (by decide) (by decide)
     (by decide) (by decide)⟩

/-- C10: `summarize_page` can never return a summary.  Whenever a page exists
and the browser is connected, its dispatched body dereferences `max_chars`
(and would next need `paras` and `headings`), none of which is bound in any
scope of the module, so it raises `NameError` — which the gate wraps as a
failure pair and the caller's unwrap re-raises.  Only with no page available
does it return the diagnostic string. -/
theorem c10_summarize_always_nameerror (s : ControllerState) (tid : Nat)
    (instructions : String) (hw : s.worker_alive = true) :
    (pageAvailable s = true →
      (summarize_page s tid instructions).2 =
        Except.error (PyErr.nameError "max_chars") ∧
      deliver (encodeResult (summarize_page s tid instructions).2) =
        Except.error (PyErr.nameError "max_chars")) ∧
    (pageAvailable s = false →
      (summarize_page s tid instructions).2 =
        Except.ok "Page not available. Please open a browser first.") := by
  constructor
  · intro hp
    have hb : (summarize_page s tid instructions).2 =
        Except.error (PyErr.nameError "max_chars") := by
      simp [summarize_page, ensure_worker, hw, hp, summarizeBody]
      rfl
    exact ⟨hb, by rw [hb]; rfl⟩
  · intro hp
    simp [summarize_page, ensure_worker, hw, hp]

/-- Witness for `c10_summarize_always_nameerror` at the mid-session state. -/
theorem c10_summarize_always_nameerror_witness :
    s_full.worker_alive = true ∧
    ((pageAvailable s_full = true →
      (summarize_page s_full 1 "Summarize the main points").2 =
        Except.error (PyErr.nameError "max_chars") ∧
      deliver (encodeResult (summarize_page s_full 1 "Summarize the main points").2) =
        Except.error (PyErr.nameError "max_chars")) ∧
     (pageAvailable s_full = false →
      (summarize_page s_full 1 "Summarize the main points").2 =
        Except.ok "Page not available. Please open a browser first.")) :=
  ⟨by decide, c10_summarize_always_nameerror s_full 1 "Summarize the main points"
    (by decide)⟩

end PW
